import Mathlib

/-!
Shallow embedding of `src/index.tsx` (the study-deck flashcard app: the
version with `performDeepClear`, `init`, `saveSession`, `handleGenerate`,
`handleTenMore`, `sanitizeUrl`, i.e. the file region around lines 183-739).

Modelling conventions:
* JS `Set<number>` / `Set<string>` are modelled as duplicate-free lists in
  insertion order; `Set.add` is `setInsert`, `new Set(array)` is `setFromList`,
  `Array.from(set)` is the identity on the underlying list.
* `localStorage` is modelled as three typed slots (`Storage`): the app writes
  `JSON.stringify` of a `\x7btopic, deck\x7d` bundle, of the viewed-index array and of
  the used-terms array, and reads them back with `JSON.parse`; for these record
  shapes stringify/parse is a faithful round trip, so each slot holds the
  decoded value, `none` meaning the key is absent.
* The outcome of the network call plus the subsequent `JSON.parse` is an
  explicit input (`GenOutcome` / `TenMoreOutcome`), since the wire and the JSON
  parser are external to the repository.  `apiError` is a rejected
  `generateContent` promise, `badJson` a `JSON.parse` throw.
* Purely presentational DOM state (SVG stroke offset, CSS classes, button
  inner HTML, overview panel text, card-count label, theme) is not modelled;
  the user-visible status line (`errorMessage.textContent` / its colour), the
  ring label, the per-card flipped state and the three disabled flags are.
* Division in `Math.round((viewedCards.size / total) * 100)` is exact rational
  arithmetic here; for the card counts concerned the IEEE double computation
  agrees.  (For `total = 0` JS produces `NaN` and shows `"NaN%"`; the model
  yields `0`.  No claim concerns the empty-deck label.)
-/

structure FlashcardSource where
  url : String
  title : String
  deriving DecidableEq

structure Flashcard where
  term : String
  definition : String
  sources : List FlashcardSource
  deriving DecidableEq

structure GenerationResponse where
  overview : String
  overviewSources : List FlashcardSource
  flashcards : List Flashcard
  deriving DecidableEq

/-- The three `localStorage` keys used by the app:
`study_deck_session` (a `\x7btopic, deck\x7d` bundle), `study_deck_viewed`
(array of viewed indices), `study_deck_used_terms` (array of terms). -/
structure Storage where
  session : Option (String × GenerationResponse)
  viewed : Option (List Nat)
  usedTerms : Option (List String)
  deriving DecidableEq

/-- JS `String.prototype.toLowerCase` (ASCII range, which covers the `i` flag
and the lowercasing the app performs on generated terms): lower-case every
character.  Equivalent to `String.toLower`, but structurally recursive so the
kernel can evaluate it. -/
def jsToLowerCase (s : String) : String :=
  ⟨s.data.map Char.toLower⟩

/-- JS `String.prototype.trim`: strip leading and trailing whitespace. -/
def jsTrim (s : String) : String :=
  ⟨((s.data.dropWhile Char.isWhitespace).reverse.dropWhile Char.isWhitespace).reverse⟩

/-- JS `Set.add`: appends the element unless already present (JS sets keep
insertion order). -/
def setInsert {α : Type} [DecidableEq α] (l : List α) (a : α) : List α :=
  if a ∈ l then l else l ++ [a]

/-- JS `new Set(array)`: inserts the array elements left to right. -/
def setFromList {α : Type} [DecidableEq α] (l : List α) : List α :=
  l.foldl setInsert []

/-- Module-level mutable state of `index.tsx`, together with the modelled
parts of the DOM and `localStorage`. -/
structure AppState where
  selectedDifficulty : String
  viewedCards : List Nat
  currentDeck : Option GenerationResponse
  currentTopic : String
  usedTerms : List String
  topicInputValue : String
  errorText : String
  errorColor : String
  ringLabel : String
  generateDisabled : Bool
  regenDisabled : Bool
  tenMoreDisabled : Bool
  loadingActive : Bool
  flipped : List Nat
  storage : Storage
  deriving DecidableEq

/-- App state at page load (before `init()` runs), over a given persisted
storage.  All in-memory collections start empty and no button is disabled. -/
def initState (st : Storage) : AppState :=
  { selectedDifficulty := "medium"
    viewedCards := []
    currentDeck := none
    currentTopic := ""
    usedTerms := []
    topicInputValue := ""
    errorText := ""
    errorColor := ""
    ringLabel := "AI"
    generateDisabled := false
    regenDisabled := false
    tenMoreDisabled := false
    loadingActive := false
    flipped := []
    storage := st }

/-- JS `Math.round` on a nonnegative value: round half away from zero, i.e.
floor of the value plus one half. -/
def jsRound (q : ℚ) : ℤ :=
  Int.floor (q + 1 / 2)

/-- The percent computed by `updateStudyProgress`:
`Math.round((viewedCards.size / total) * 100)`. -/
def studyPercentZ (viewed total : ℕ) : ℤ :=
  jsRound ((viewed : ℚ) / (total : ℚ) * 100)

/-- `updateStudyProgress()` (index.tsx lines 347-361): recomputes the ring
label and the status line from the viewed count and the deck size. -/
def updateStudyProgress (s : AppState) : AppState :=
  match s.currentDeck with
  | none => s
  | some d =>
    let total := d.flashcards.length
    let percent := studyPercentZ s.viewedCards.length total
    let s1 := { s with ringLabel := toString percent ++ "%" }
    if s.viewedCards.length = total then
      { s1 with errorText := "Mastery Achieved! 🎉", errorColor := "var(--accent-purple)" }
    else
      { s1 with
          errorText := toString s.viewedCards.length ++ " / " ++ toString total ++ " Reviewed"
          errorColor := "var(--text-dim)" }

/-- `saveSession(topic)` (lines 331-337): when a deck is present, writes the
three storage slots (last write wins). -/
def saveSession (s : AppState) (topic : String) : AppState :=
  match s.currentDeck with
  | none => s
  | some d =>
    { s with storage :=
        { session := some (topic, d)
          viewed := some s.viewedCards
          usedTerms := some s.usedTerms } }

/-- `startLoadingSimulation()` (lines 363-386): marks the cooperative progress
timer as running and resets the ring label.  The individual timer ticks only
touch the presentational progress ring and status line and are not modelled. -/
def startLoadingSimulation (s : AppState) : AppState :=
  { s with loadingActive := true, ringLabel := "0%" }

/-- `stopLoadingSimulation()` (lines 388-394): cancels the timer. -/
def stopLoadingSimulation (s : AppState) : AppState :=
  { s with loadingActive := false }

/-- `renderDeck(data, topic)` (lines 451-471): rebuilds the card container
(every card element starts unflipped), renders the overview panel and the
card-count label (presentational, not modelled) and ends by calling
`updateStudyProgress()`.  At every call site `s.currentDeck` is `some data`. -/
def renderDeck (s : AppState) : AppState :=
  updateStudyProgress { s with flipped := [] }

/-- `init()` (lines 294-324): restores the session from the three storage
slots.  Each of the three reads is independently optional; the deck and topic
are restored exactly when the `study_deck_session` slot is present.  (The
`try/catch` around the reads cannot fire in the typed model, where every
stored value decodes.) -/
def init (s : AppState) : AppState :=
  match s.storage.session with
  | none => s
  | some (topic, deck) =>
    let s1 :=
      match s.storage.viewed with
      | some vs => { s with viewedCards := setFromList vs }
      | none => s
    let s2 :=
      match s1.storage.usedTerms with
      | some ts => { s1 with usedTerms := setFromList ts }
      | none => s1
    renderDeck { s2 with currentDeck := some deck, currentTopic := topic }

/-- `performDeepClear()` (lines 244-292): purges the three storage keys,
resets all in-memory state, cancels the timer and restores the initial UI
text.  (It re-enables `generateButton` but does not touch the other two
buttons' `disabled` attributes; it only hides them.) -/
def performDeepClear (s : AppState) : AppState :=
  { s with
      storage := { session := none, viewed := none, usedTerms := none }
      viewedCards := []
      usedTerms := []
      currentDeck := none
      currentTopic := ""
      loadingActive := false
      flipped := []
      topicInputValue := ""
      errorText := "Ready to learn"
      errorColor := "var(--text-dim)"
      ringLabel := "AI"
      generateDisabled := false }

/-- Click handler of a card element (`createCardElement`, lines 438-446):
toggles the flipped class, and on the first flip of this index records it as
viewed, recomputes progress and saves the session.  `topic` is the topic
string captured when the card element was created. -/
def flipCard (s : AppState) (topic : String) (index : Nat) : AppState :=
  let s1 :=
    { s with flipped :=
        if index ∈ s.flipped then s.flipped.erase index else s.flipped ++ [index] }
  if index ∈ s1.viewedCards then s1
  else
    let s2 := { s1 with viewedCards := setInsert s1.viewedCards index }
    saveSession (updateStudyProgress s2) topic

/-- Outcome of `ai.models.generateContent` followed by
`JSON.parse(result.text || \x27\x7b\x7d\x27)` inside `handleGenerate`:
a rejected promise carrying an error message, a `JSON.parse` throw carrying
the syntax-error message, a parse that yields an object without a
`flashcards` array (this is what an empty/absent `result.text` produces via
the `|| \x27\x7b\x7d\x27` fallback), or a well-shaped response object. -/
inductive GenOutcome where
  | apiError (msg : String)
  | badJson (msg : String)
  | jsonNoFlashcards
  | parsed (g : GenerationResponse)

/-- Message of the `TypeError` raised by `data.flashcards.forEach` when the
parsed object has no `flashcards` field (V8 wording). -/
def jsForEachUndefinedMsg : String :=
  "Cannot read properties of undefined (reading \x27forEach\x27)"

/-- Synchronous prefix of `handleGenerate(isRegenerate)` (lines 473-488), up
to the `await`: resolve the topic, run the two early-return guards, set the
busy flag, clear `usedTerms` on a non-regenerate call, start the loading
simulation and commit the topic.  `none` means the handler returned without
issuing a request (and without changing any state). -/
def handleGenerateStart (s : AppState) (isRegenerate : Bool) : Option AppState :=
  let topic := if jsTrim s.topicInputValue = "" then s.currentTopic else jsTrim s.topicInputValue
  if topic = "" then none
  else if s.generateDisabled || s.regenDisabled then none
  else
    let s1 :=
      if isRegenerate then { s with regenDisabled := true }
      else { s with generateDisabled := true, usedTerms := [] }
    some { startLoadingSimulation s1 with currentTopic := topic }

/-- Continuation of `handleGenerate` after the `await` (lines 490-574),
applied to the state produced by `handleGenerateStart` (so the local `topic`
equals `currentTopic`).  On success: merge the lowercased new terms into
`usedTerms`, replace the deck, clear the viewed set, render, save, stop the
timer.  On any throw: stop the timer and surface `API Error: ...`.  The
`finally` block re-enables both generate buttons on every path. -/
def handleGenerateFinish (s : AppState) (outcome : GenOutcome) : AppState :=
  match outcome with
  | .apiError msg =>
    let s1 := stopLoadingSimulation s
    { s1 with
        errorText := "API Error: " ++ msg
        errorColor := "var(--accent-orange)"
        generateDisabled := false
        regenDisabled := false }
  | .badJson msg =>
    let s1 := stopLoadingSimulation s
    { s1 with
        errorText := "API Error: " ++ msg
        errorColor := "var(--accent-orange)"
        generateDisabled := false
        regenDisabled := false }
  | .jsonNoFlashcards =>
    let s1 := stopLoadingSimulation s
    { s1 with
        errorText := "API Error: " ++ jsForEachUndefinedMsg
        errorColor := "var(--accent-orange)"
        generateDisabled := false
        regenDisabled := false }
  | .parsed g =>
    let used2 := g.flashcards.foldl (fun ts c => setInsert ts (jsToLowerCase c.term)) s.usedTerms
    let s1 := { s with usedTerms := used2, currentDeck := some g, viewedCards := [] }
    let s2 := saveSession (renderDeck s1) s.currentTopic
    let s3 := stopLoadingSimulation s2
    { s3 with generateDisabled := false, regenDisabled := false }

/-- `handleGenerate(isRegenerate)` as one transition, given the request
outcome.  When the synchronous prefix bails out, the state is unchanged and
the outcome never materialises. -/
def handleGenerate (s : AppState) (isRegenerate : Bool) (outcome : GenOutcome) : AppState :=
  match handleGenerateStart s isRegenerate with
  | none => s
  | some s1 => handleGenerateFinish s1 outcome

/-- Outcome of the request plus `JSON.parse(result.text || \x27\x7b\x7d\x27)` inside
`handleTenMore`.  A parsed object without a `flashcards` array yields
`parsedTen []` through the `data.flashcards || []` fallback. -/
inductive TenMoreOutcome where
  | apiError (msg : String)
  | badJson (msg : String)
  | parsedTen (cards : List Flashcard)

/-- `handleTenMore()` (lines 614-688): guarded by
`!currentTopic || !currentDeck || tenMoreButton.disabled`; appends the new
cards after the existing ones (indices continue from the current length),
merges their lowercased terms into `usedTerms`, recomputes progress and
saves.  On a throw the error is only logged to the console; the `finally`
block re-enables the button on every path. -/
def handleTenMore (s : AppState) (outcome : TenMoreOutcome) : AppState :=
  if s.currentTopic = "" then s
  else
    match s.currentDeck with
    | none => s
    | some d =>
      if s.tenMoreDisabled then s
      else
        let s1 := { s with tenMoreDisabled := true }
        match outcome with
        | .apiError _ => { s1 with tenMoreDisabled := false }
        | .badJson _ => { s1 with tenMoreDisabled := false }
        | .parsedTen cards =>
          let deck2 := { d with flashcards := d.flashcards ++ cards }
          let used2 := cards.foldl (fun ts c => setInsert ts (jsToLowerCase c.term)) s1.usedTerms
          let s2 := { s1 with currentDeck := some deck2, usedTerms := used2 }
          let s3 := saveSession (updateStudyProgress s2) s.currentTopic
          { s3 with tenMoreDisabled := false }

/-- JS `array.join(", ")` as used on `Array.from(usedTerms)`. -/
def joinComma : List String → String
  | [] => ""
  | [x] => x
  | x :: y :: xs => x ++ ", " ++ joinComma (y :: xs)

/-- The `avoidListStr` of `handleGenerate` (lines 493-496): non-empty term
sets produce the forbidden-terms sentence, an empty set produces the empty
string. -/
def genAvoidList (usedTerms : List String) : String :=
  if usedTerms.length > 0 then
    "DO NOT use or repeat the following terms as they have already been generated for this user: "
      ++ joinComma usedTerms ++ "."
  else ""

/-- The `systemInstruction` template of `handleGenerate` (lines 498-513). -/
def genSystemInstruction (topic difficulty quantity : String) (usedTerms : List String) :
    String :=
  "You are a world-class academic expert. \n      Subject: \"" ++ topic
    ++ "\".\n      Difficulty: " ++ difficulty.toUpper
    ++ ".\n\n      CRITICAL TASK: \n      1. Provide a comprehensive \x27overview\x27 summary of the subject grounded EXCLUSIVELY in factual, verified research. \n      2. Provide \x27overviewSources\x27 (2-3 links) to reliable academic or established news sources.\n      3. Generate exactly "
    ++ quantity
    ++ " info cards with verified \x27term\x27, \x27definition\x27, and specific verified \x27sources\x27 for EACH.\n      \n      ACCURACY WARNING: \n      Strictly avoid hallucinations. If you are unsure about a specific detail or source, omit it rather than providing incorrect information. All content must be educational and accurate.\n\n      "
    ++ genAvoidList usedTerms
    ++ "\n      Focus on fresh content, alternative perspectives, or deeper concepts related to the subject.\n\n      Format: JSON \x7b \"overview\": string, \"overviewSources\": [\x7burl, title\x7d], \"flashcards\": [\x7bterm, definition, sources: [\x7burl, title\x7d]\x7d] \x7d"

/-- The `avoidListStr` of `handleTenMore` (line 624): always present, even
for an empty term set. -/
def tenMoreAvoidList (usedTerms : List String) : String :=
  "DO NOT use or repeat any of these terms: " ++ joinComma usedTerms ++ "."

/-- The `systemInstruction` template of `handleTenMore` (lines 626-636). -/
def tenMoreSystemInstruction (topic difficulty : String) (usedTerms : List String) : String :=
  "You are extending a study deck. \n      Subject: \"" ++ topic
    ++ "\".\n      Difficulty: " ++ difficulty.toUpper
    ++ ".\n\n      CRITICAL TASK: \n      Generate exactly 10 NEW info cards that were NOT in the previous set. \n      Focus on more specific details, niche sub-topics, or advanced applications.\n      \n      "
    ++ tenMoreAvoidList usedTerms
    ++ "\n\n      Format: JSON \x7b \"flashcards\": [\x7bterm, definition, sources: [\x7burl, title\x7d]\x7d] \x7d"

/-- Head test of the regex `/^https?:\/\//i` in `sanitizeUrl`: after the
(case-insensitive) letters `http` and an optional `s`, the literal `://`
must follow. -/
def schemeSepCheck : List Char → Bool
  | a :: b :: c :: _ => a == ':' && b == '/' && c == '/'
  | _ => false

/-- The regex `/^https?:\/\//i` of `sanitizeUrl` (line 401), transcribed as a
character matcher on the string's characters. -/
def httpRegexCheck : List Char → Bool
  | c1 :: c2 :: c3 :: c4 :: rest =>
    (c1.toLower == 'h' && c2.toLower == 't' && c3.toLower == 't' && c4.toLower == 'p')
      &&
      (match rest with
       | c5 :: rest2 => if c5.toLower == 's' then schemeSepCheck rest2 else schemeSepCheck rest
       | [] => false)
  | _ => false

/-- `sanitizeUrl(url)` (lines 397-409).  Nothing in the `try` body can throw,
so the `catch e` branch is dead code. -/
def sanitizeUrl (url : String) : String :=
  if url = "" then "#"
  else if httpRegexCheck url.data then url
  else "https://" ++ url

/-- Spec-side reading of the scheme test: the string begins, up to ASCII
lower-casing, with `http://` or `https://`. -/
def lowerHttpSpec (s : String) : Prop :=
  (s.data.take 7).map Char.toLower = ("http://").data
    ∨ (s.data.take 8).map Char.toLower = ("https://").data

/-- Substring containment of `small` in `big` (used for the literal presence
of a term in a prompt). -/
def strContains (big small : String) : Prop :=
  ∃ pre post : String, big = pre ++ small ++ post

/-- Executable prefix test on character lists. -/
def listStartsWithCheck : List Char → List Char → Bool
  | [], _ => true
  | _ :: _, [] => false
  | a :: as, b :: bs => a == b && listStartsWithCheck as bs

/-- Executable substring test on character lists. -/
def listContainsCheck (small : List Char) : List Char → Bool
  | [] => small.isEmpty
  | b :: bs => listStartsWithCheck small (b :: bs) || listContainsCheck small bs

/-- Executable substring test on strings. -/
def containsCheck (big small : String) : Bool :=
  listContainsCheck small.data big.data

/-- Number of flashcards of the current deck (`0` when no deck is loaded). -/
def deckLen (s : AppState) : Nat :=
  match s.currentDeck with
  | none => 0
  | some d => d.flashcards.length

/-- Consistency of the persisted slots: whenever both the session bundle and
the viewed list are present, every stored viewed index addresses a card of
the stored deck. -/
def storageOk (st : Storage) : Prop :=
  match st.session, st.viewed with
  | some (_, d), some vs => ∀ i ∈ vs, i < d.flashcards.length
  | _, _ => True

/-- The viewed-set invariant of the spec: every viewed index addresses a card
of the current deck, and the persisted slots are consistent. -/
def stateInv (s : AppState) : Prop :=
  (∀ i ∈ s.viewedCards, i < deckLen s) ∧ storageOk s.storage

/-- A tiny concrete deck used by the witnesses and counterexamples. -/
def sampleCard : Flashcard :=
  { term := "Mitosis", definition := "Cell division producing identical cells.", sources := [] }

/-- A one-card deck for the concrete test states. -/
def sampleDeck : GenerationResponse :=
  { overview := "Cells divide."
    overviewSources := []
    flashcards := [sampleCard] }

/-- A concrete running state: topic `biology`, the one-card deck loaded,
`mitosis` already used, nothing viewed, no request in flight. -/
def sampleState : AppState :=
  { selectedDifficulty := "medium"
    viewedCards := []
    currentDeck := some sampleDeck
    currentTopic := "biology"
    usedTerms := ["mitosis"]
    topicInputValue := "biology"
    errorText := "0 / 1 Reviewed"
    errorColor := "var(--text-dim)"
    ringLabel := "0%"
    generateDisabled := false
    regenDisabled := false
    tenMoreDisabled := false
    loadingActive := false
    flipped := []
    storage := { session := some ("biology", sampleDeck), viewed := some [], usedTerms := some ["mitosis"] } }

/-- A fresh generation response whose single term is new. -/
def sampleResponseB : GenerationResponse :=
  { overview := "Meiosis overview."
    overviewSources := []
    flashcards := [{ term := "Meiosis", definition := "Reductive division.", sources := [] }] }

/-! ## Helper lemmas -/

theorem char_toNat_ofNat_of_valid (m : Nat) (h : m < 55296) : (Char.ofNat m).toNat = m := by
  rw [Char.ofNat, dif_pos (Or.inl h)]
  rfl

theorem char_toLower_toNat_of_upper (c : Char) (h : 65 ≤ c.toNat ∧ c.toNat ≤ 90) :
    (c.toLower).toNat = c.toNat + 32 := by
  rw [Char.toLower, if_pos ⟨h.1, h.2⟩]
  exact char_toNat_ofNat_of_valid _ (by omega)

theorem char_toLower_of_not_upper (c : Char) (h : ¬(65 ≤ c.toNat ∧ c.toNat ≤ 90)) :
    c.toLower = c := by
  rw [Char.toLower, if_neg ?_]
  intro hc
  exact h ⟨hc.1, hc.2⟩

theorem char_toLower_eq_nonletter (c d : Char)
    (hd : (d.toNat < 65 ∨ 90 < d.toNat) ∧ (d.toNat < 97 ∨ 122 < d.toNat)) :
    (c.toLower = d) ↔ c = d := by
  constructor
  · intro h
    by_cases hu : 65 ≤ c.toNat ∧ c.toNat ≤ 90
    · exfalso
      have h1 := char_toLower_toNat_of_upper c hu
      rw [h] at h1
      omega
    · rw [char_toLower_of_not_upper c hu] at h
      exact h
  · intro h
    subst h
    apply char_toLower_of_not_upper
    intro hc
    omega

theorem char_toLower_eq_colon (c : Char) : (c.toLower = ':') ↔ c = ':' :=
  char_toLower_eq_nonletter c ':' (by decide)

theorem char_toLower_eq_slash (c : Char) : (c.toLower = '/') ↔ c = '/' :=
  char_toLower_eq_nonletter c '/' (by decide)

theorem httpRegexCheck_iff (l : List Char) :
    httpRegexCheck l = true ↔
      ((l.take 7).map Char.toLower = ("http://").data
        ∨ (l.take 8).map Char.toLower = ("https://").data) := by
  have hd7 : ("http://").data = ['h', 't', 't', 'p', ':', '/', '/'] := rfl
  have hd8 : ("https://").data = ['h', 't', 't', 'p', 's', ':', '/', '/'] := rfl
  rw [hd7, hd8]
  rcases l with _ | ⟨c1, _ | ⟨c2, _ | ⟨c3, _ | ⟨c4, _ | ⟨c5, _ | ⟨c6, _ | ⟨c7, _ | ⟨c8, rest⟩⟩⟩⟩⟩⟩⟩⟩
  · simp [httpRegexCheck]
  · simp [httpRegexCheck]
  · simp [httpRegexCheck]
  · simp [httpRegexCheck]
  · simp [httpRegexCheck, schemeSepCheck]
  · by_cases h5 : c5.toLower = 's' <;>
      simp [httpRegexCheck, schemeSepCheck, h5, char_toLower_eq_colon, char_toLower_eq_slash]
  · by_cases h5 : c5.toLower = 's' <;>
      simp [httpRegexCheck, schemeSepCheck, h5, char_toLower_eq_colon, char_toLower_eq_slash]
  · by_cases h5 : c5.toLower = 's' <;>
      simp [httpRegexCheck, schemeSepCheck, h5, char_toLower_eq_colon,
        char_toLower_eq_slash] <;>
      tauto
  · by_cases h5 : c5.toLower = 's' <;>
      simp [httpRegexCheck, schemeSepCheck, h5, char_toLower_eq_colon,
        char_toLower_eq_slash] <;>
      tauto

theorem lowerHttpSpec_iff_check (s : String) :
    lowerHttpSpec s ↔ httpRegexCheck s.data = true :=
  (httpRegexCheck_iff s.data).symm

/-- C10: `sanitizeUrl` is total and returns `#` on the empty string, the
input unchanged when it begins (case-insensitively) with `http://` or
`https://`, and otherwise the input prefixed with `https://`; every returned
value is `#` or begins with an http(s) scheme. -/
theorem c10_sanitizeUrl_total_cases (url : String) :
    (url = "" → sanitizeUrl url = "#")
      ∧ (url ≠ "" → lowerHttpSpec url → sanitizeUrl url = url)
      ∧ (url ≠ "" → ¬lowerHttpSpec url → sanitizeUrl url = "https://" ++ url)
      ∧ (sanitizeUrl url = "#" ∨ lowerHttpSpec (sanitizeUrl url)) := by
  by_cases hu : url = ""
  · subst hu
    exact ⟨fun _ => rfl, fun h => absurd rfl h, fun h => absurd rfl h, Or.inl rfl⟩
  · by_cases ht : httpRegexCheck url.data = true
    · have hspec := (lowerHttpSpec_iff_check url).mpr ht
      have hs : sanitizeUrl url = url := by rw [sanitizeUrl, if_neg hu, if_pos ht]
      exact ⟨fun h => absurd h hu, fun _ _ => hs, fun _ hn => absurd hspec hn,
        Or.inr (by rw [hs]; exact hspec)⟩
    · have hspec : ¬lowerHttpSpec url := fun h => ht ((lowerHttpSpec_iff_check url).mp h)
      have hs : sanitizeUrl url = "https://" ++ url := by rw [sanitizeUrl, if_neg hu, if_neg ht]
      refine ⟨fun h => absurd h hu, fun _ h => absurd h hspec, fun _ _ => hs, Or.inr ?_⟩
      rw [hs]
      refine Or.inr ?_
      have hdata : ("https://" ++ url).data
          = ['h', 't', 't', 'p', 's', ':', '/', '/'] ++ url.data := by
        rw [String.data_append]
      have hlen : (['h', 't', 't', 'p', 's', ':', '/', '/'] : List Char).length = 8 := rfl
      rw [hdata, List.take_left' hlen]
      decide

theorem c10_sanitizeUrl_total_cases_witness :
    sanitizeUrl "" = "#"
      ∧ sanitizeUrl "HTTPS://x.org" = "HTTPS://x.org"
      ∧ sanitizeUrl "example.com" = "https://" ++ "example.com" :=
  ⟨(c10_sanitizeUrl_total_cases "").1 rfl,
    (c10_sanitizeUrl_total_cases "HTTPS://x.org").2.1 (by decide)
      (Or.inr (by decide)),
    (c10_sanitizeUrl_total_cases "example.com").2.2.1 (by decide)
      (by intro h; rcases h with h | h <;> revert h <;> decide)⟩

theorem studyPercentZ_eq (v t : ℕ) (ht : 0 < t) :
    studyPercentZ v t = (((200 * v + t) / (2 * t) : ℕ) : ℤ) := by
  have ht' : (t : ℚ) ≠ 0 := by positivity
  have h1 : (v : ℚ) / (t : ℚ) * 100 + 1 / 2 = ((200 * v + t : ℕ) : ℚ) / ((2 * t : ℕ) : ℚ) := by
    push_cast
    field_simp
    ring
  rw [studyPercentZ, jsRound, h1]
  have h2 : ((200 * v + t : ℕ) : ℚ) = (((200 * v + t : ℕ) : ℤ) : ℚ) := by push_cast; ring
  rw [h2, Rat.floor_intCast_div_natCast, ← Int.natCast_div]

/-- C3 (amended): the displayed ring label is the rounded percent
`round(viewedCount / totalCount * 100)`, the percent is monotonically
non-decreasing in the viewed count, and (for `viewedCount ≤ totalCount`) it
equals exactly 100 iff `199 * totalCount ≤ 200 * viewedCount`; for decks of
fewer than 200 cards that condition coincides with
`viewedCount = totalCount`. -/
theorem c3_progress_percent_amended (s : AppState) (d : GenerationResponse)
    (hd : s.currentDeck = some d) (v v' t : ℕ) (ht : 0 < t) :
    ((updateStudyProgress s).ringLabel
        = toString (studyPercentZ s.viewedCards.length d.flashcards.length) ++ "%")
      ∧ (v ≤ v' → studyPercentZ v t ≤ studyPercentZ v' t)
      ∧ (v ≤ t → (studyPercentZ v t = 100 ↔ 199 * t ≤ 200 * v))
      ∧ (v ≤ t → t < 200 → (studyPercentZ v t = 100 ↔ v = t)) := by
  have hkey : ∀ w : ℕ, w ≤ t → (studyPercentZ w t = 100 ↔ 199 * t ≤ 200 * w) := by
    intro w hw
    rw [studyPercentZ_eq w t ht]
    have h2t : 0 < 2 * t := by omega
    constructor
    · intro h
      have h' : (200 * w + t) / (2 * t) = 100 := by exact_mod_cast h
      have hge : 100 ≤ (200 * w + t) / (2 * t) := h'.ge
      rw [Nat.le_div_iff_mul_le h2t] at hge
      omega
    · intro h
      have hge : 100 ≤ (200 * w + t) / (2 * t) := by
        rw [Nat.le_div_iff_mul_le h2t]
        omega
      have hlt : (200 * w + t) / (2 * t) < 101 := by
        rw [Nat.div_lt_iff_lt_mul h2t]
        omega
      have : (200 * w + t) / (2 * t) = 100 := by omega
      exact_mod_cast this
  refine ⟨?_, ?_, hkey v, ?_⟩
  · simp only [updateStudyProgress, hd]
    split <;> rfl
  · intro hvv
    rw [studyPercentZ_eq v t ht, studyPercentZ_eq v' t ht]
    have : (200 * v + t) / (2 * t) ≤ (200 * v' + t) / (2 * t) :=
      Nat.div_le_div_right (by omega)
    exact_mod_cast this
  · intro hv hlt
    rw [hkey v hv]
    omega

theorem c3_progress_percent_amended_witness :
    ((updateStudyProgress sampleState).ringLabel
        = toString (studyPercentZ 0 1) ++ "%")
      ∧ studyPercentZ 1 3 ≤ studyPercentZ 2 3
      ∧ (studyPercentZ 3 3 = 100 ↔ 199 * 3 ≤ 200 * 3)
      ∧ (studyPercentZ 3 3 = 100 ↔ 3 = 3) :=
  ⟨(c3_progress_percent_amended sampleState sampleDeck rfl 0 0 1 (by decide)).1,
    (c3_progress_percent_amended sampleState sampleDeck rfl 1 2 3 (by decide)).2.1 (by decide),
    (c3_progress_percent_amended sampleState sampleDeck rfl 3 2 3 (by decide)).2.2.1 (by decide),
    (c3_progress_percent_amended sampleState sampleDeck rfl 3 2 3 (by decide)).2.2.2 (by decide)
      (by decide)⟩

/-- C3 counterexample: with a 300-card deck and 299 cards viewed the rounded
percent is exactly 100 although `viewedCount ≠ totalCount`, so "equals
exactly 100 only when viewedCount == totalCount" fails on the code. -/
theorem c3_progress_percent_counterexample :
    studyPercentZ 299 300 = 100 ∧ (299 : ℕ) ≠ 300 := by
  constructor
  · rw [studyPercentZ_eq 299 300 (by norm_num)]
    norm_num
  · decide

theorem mem_setInsert {α : Type} [DecidableEq α] (l : List α) (a b : α) :
    a ∈ setInsert l b ↔ a ∈ l ∨ a = b := by
  rw [setInsert]
  split
  · rename_i hb
    constructor
    · exact fun h => Or.inl h
    · rintro (h | rfl)
      · exact h
      · exact hb
  · simp

theorem subset_setInsert {α : Type} [DecidableEq α] (l : List α) (b : α) :
    l ⊆ setInsert l b := by
  intro a ha
  rw [mem_setInsert]
  exact Or.inl ha

theorem subset_foldl_setInsert {α β : Type} [DecidableEq α] (g : β → α) (xs : List β) :
    ∀ acc : List α, acc ⊆ xs.foldl (fun ts x => setInsert ts (g x)) acc := by
  induction xs with
  | nil => intro acc a ha; simpa using ha
  | cons x xs ih =>
    intro acc a ha
    simp only [List.foldl_cons]
    exact ih (setInsert acc (g x)) (subset_setInsert acc (g x) ha)

theorem mem_foldl_setInsert {α : Type} [DecidableEq α] (xs : List α) :
    ∀ (acc : List α) (a : α), a ∈ xs.foldl setInsert acc → a ∈ acc ∨ a ∈ xs := by
  induction xs with
  | nil => intro acc a h; exact Or.inl h
  | cons x xs ih =>
    intro acc a h
    simp only [List.foldl_cons] at h
    rcases ih (setInsert acc x) a h with h1 | h1
    · rw [mem_setInsert] at h1
      rcases h1 with h1 | rfl
      · exact Or.inl h1
      · exact Or.inr (List.mem_cons_self _ _)
    · exact Or.inr (List.mem_cons_of_mem _ h1)

theorem mem_setFromList {α : Type} [DecidableEq α] (l : List α) (a : α)
    (h : a ∈ setFromList l) : a ∈ l := by
  rcases mem_foldl_setInsert l [] a h with h1 | h1
  · cases h1
  · exact h1

theorem foldl_setInsert_nodup_eq {α : Type} [DecidableEq α] (l : List α) :
    ∀ acc, l.Nodup → (∀ a ∈ l, a ∉ acc) → l.foldl setInsert acc = acc ++ l := by
  induction l with
  | nil => intro acc _ _; simp
  | cons x xs ih =>
    intro acc hnd hdisj
    simp only [List.foldl_cons]
    have hx : x ∉ acc := hdisj x (List.mem_cons_self _ _)
    have hins : setInsert acc x = acc ++ [x] := by rw [setInsert, if_neg hx]
    rw [hins, ih (acc ++ [x]) (List.nodup_cons.mp hnd).2 ?_]
    · simp
    · intro a ha
      simp only [List.mem_append, List.mem_singleton, not_or]
      constructor
      · exact fun h1 => hdisj a (List.mem_cons_of_mem _ ha) h1
      · rintro rfl
        exact (List.nodup_cons.mp hnd).1 ha

theorem setFromList_eq_of_nodup {α : Type} [DecidableEq α] (l : List α) (h : l.Nodup) :
    setFromList l = l := by
  rw [setFromList, foldl_setInsert_nodup_eq l [] h ?_]
  · simp
  · intro a _ hc
    cases hc

theorem usp_currentDeck (s : AppState) :
    (updateStudyProgress s).currentDeck = s.currentDeck := by
  unfold updateStudyProgress
  cases hd : s.currentDeck
  · exact hd
  · dsimp only
    split <;> rfl

theorem usp_currentTopic (s : AppState) :
    (updateStudyProgress s).currentTopic = s.currentTopic := by
  unfold updateStudyProgress
  cases hd : s.currentDeck
  · rfl
  · dsimp only
    split <;> rfl

theorem usp_viewedCards (s : AppState) :
    (updateStudyProgress s).viewedCards = s.viewedCards := by
  unfold updateStudyProgress
  cases hd : s.currentDeck
  · rfl
  · dsimp only
    split <;> rfl

theorem usp_usedTerms (s : AppState) :
    (updateStudyProgress s).usedTerms = s.usedTerms := by
  unfold updateStudyProgress
  cases hd : s.currentDeck
  · rfl
  · dsimp only
    split <;> rfl

theorem usp_storage (s : AppState) :
    (updateStudyProgress s).storage = s.storage := by
  unfold updateStudyProgress
  cases hd : s.currentDeck
  · rfl
  · dsimp only
    split <;> rfl

theorem usp_flipped (s : AppState) :
    (updateStudyProgress s).flipped = s.flipped := by
  unfold updateStudyProgress
  cases hd : s.currentDeck
  · rfl
  · dsimp only
    split <;> rfl

theorem usp_generateDisabled (s : AppState) :
    (updateStudyProgress s).generateDisabled = s.generateDisabled := by
  unfold updateStudyProgress
  cases hd : s.currentDeck
  · rfl
  · dsimp only
    split <;> rfl

theorem usp_regenDisabled (s : AppState) :
    (updateStudyProgress s).regenDisabled = s.regenDisabled := by
  unfold updateStudyProgress
  cases hd : s.currentDeck
  · rfl
  · dsimp only
    split <;> rfl

theorem usp_tenMoreDisabled (s : AppState) :
    (updateStudyProgress s).tenMoreDisabled = s.tenMoreDisabled := by
  unfold updateStudyProgress
  cases hd : s.currentDeck
  · rfl
  · dsimp only
    split <;> rfl

theorem usp_loadingActive (s : AppState) :
    (updateStudyProgress s).loadingActive = s.loadingActive := by
  unfold updateStudyProgress
  cases hd : s.currentDeck
  · rfl
  · dsimp only
    split <;> rfl

theorem save_currentDeck (s : AppState) (topic : String) :
    (saveSession s topic).currentDeck = s.currentDeck := by
  unfold saveSession
  cases hd : s.currentDeck <;> first | rfl | exact hd

theorem save_viewedCards (s : AppState) (topic : String) :
    (saveSession s topic).viewedCards = s.viewedCards := by
  unfold saveSession
  cases hd : s.currentDeck <;> rfl

theorem save_usedTerms (s : AppState) (topic : String) :
    (saveSession s topic).usedTerms = s.usedTerms := by
  unfold saveSession
  cases hd : s.currentDeck <;> rfl

theorem save_currentTopic (s : AppState) (topic : String) :
    (saveSession s topic).currentTopic = s.currentTopic := by
  unfold saveSession
  cases hd : s.currentDeck <;> rfl

theorem save_errorText (s : AppState) (topic : String) :
    (saveSession s topic).errorText = s.errorText := by
  unfold saveSession
  cases hd : s.currentDeck <;> rfl

theorem save_ringLabel (s : AppState) (topic : String) :
    (saveSession s topic).ringLabel = s.ringLabel := by
  unfold saveSession
  cases hd : s.currentDeck <;> rfl

theorem save_flipped (s : AppState) (topic : String) :
    (saveSession s topic).flipped = s.flipped := by
  unfold saveSession
  cases hd : s.currentDeck <;> rfl

theorem save_generateDisabled (s : AppState) (topic : String) :
    (saveSession s topic).generateDisabled = s.generateDisabled := by
  unfold saveSession
  cases hd : s.currentDeck <;> rfl

theorem save_regenDisabled (s : AppState) (topic : String) :
    (saveSession s topic).regenDisabled = s.regenDisabled := by
  unfold saveSession
  cases hd : s.currentDeck <;> rfl

theorem save_tenMoreDisabled (s : AppState) (topic : String) :
    (saveSession s topic).tenMoreDisabled = s.tenMoreDisabled := by
  unfold saveSession
  cases hd : s.currentDeck <;> rfl

theorem save_storage_of_deck (s : AppState) (topic : String) (d : GenerationResponse)
    (hd : s.currentDeck = some d) :
    (saveSession s topic).storage =
      { session := some (topic, d)
        viewed := some s.viewedCards
        usedTerms := some s.usedTerms } := by
  unfold saveSession
  rw [hd]

/-- C1: for a session state with a non-null deck, `saveSession` followed by
`init` on a fresh page (no intervening writes to the three slots)
reconstructs the deck, the topic, the viewed set and the used-terms set that
were saved. -/
theorem c1_save_load_roundtrip (s : AppState) (d : GenerationResponse) (topic : String)
    (hd : s.currentDeck = some d) (hv : s.viewedCards.Nodup) (hu : s.usedTerms.Nodup) :
    ((init (initState (saveSession s topic).storage)).currentDeck = some d)
      ∧ ((init (initState (saveSession s topic).storage)).currentTopic = topic)
      ∧ ((init (initState (saveSession s topic).storage)).viewedCards = s.viewedCards)
      ∧ ((init (initState (saveSession s topic).storage)).usedTerms = s.usedTerms) := by
  rw [save_storage_of_deck s topic d hd]
  unfold init initState
  dsimp only
  unfold renderDeck
  rw [setFromList_eq_of_nodup _ hv, setFromList_eq_of_nodup _ hu]
  refine ⟨?_, ?_, ?_, ?_⟩
  · rw [usp_currentDeck]
  · rw [usp_currentTopic]
  · rw [usp_viewedCards]
  · rw [usp_usedTerms]

theorem c1_save_load_roundtrip_witness :
    ((init (initState (saveSession sampleState "biology").storage)).currentDeck = some sampleDeck)
      ∧ ((init (initState (saveSession sampleState "biology").storage)).currentTopic = "biology")
      ∧ ((init (initState (saveSession sampleState "biology").storage)).viewedCards
          = sampleState.viewedCards)
      ∧ ((init (initState (saveSession sampleState "biology").storage)).usedTerms
          = sampleState.usedTerms) :=
  c1_save_load_roundtrip sampleState sampleDeck "biology" rfl (by decide) (by decide)

theorem usp_ringLabel_of_deck (s : AppState) (d : GenerationResponse)
    (hd : s.currentDeck = some d) :
    (updateStudyProgress s).ringLabel
      = toString (studyPercentZ s.viewedCards.length d.flashcards.length) ++ "%" := by
  unfold updateStudyProgress
  rw [hd]
  dsimp only
  split <;> rfl

/-- C4: a successful extend appends the `k` new cards at indices
`n .. n+k-1` (they are exactly the dropped suffix), leaves the first `n`
cards unchanged, and leaves the viewed set unchanged. -/
theorem c4_extend_appends (s : AppState) (d : GenerationResponse) (cards : List Flashcard)
    (htop : s.currentTopic ≠ "") (hd : s.currentDeck = some d)
    (hbusy : s.tenMoreDisabled = false) :
    ∃ d2, (handleTenMore s (.parsedTen cards)).currentDeck = some d2
      ∧ d2.flashcards.take d.flashcards.length = d.flashcards
      ∧ d2.flashcards.drop d.flashcards.length = cards
      ∧ d2.flashcards.length = d.flashcards.length + cards.length
      ∧ (handleTenMore s (.parsedTen cards)).viewedCards = s.viewedCards := by
  unfold handleTenMore
  rw [if_neg htop, hd]
  dsimp only
  rw [if_neg (by rw [hbusy]; exact Bool.false_ne_true)]
  dsimp only
  refine ⟨{ d with flashcards := d.flashcards ++ cards }, ?_, ?_, ?_, ?_, ?_⟩
  · rw [save_currentDeck, usp_currentDeck]
  · exact List.take_left d.flashcards cards
  · exact List.drop_left d.flashcards cards
  · simp
  · rw [save_viewedCards, usp_viewedCards]

theorem c4_extend_appends_witness :
    ∃ d2, (handleTenMore sampleState (.parsedTen [sampleCard])).currentDeck = some d2
      ∧ d2.flashcards.take sampleDeck.flashcards.length = sampleDeck.flashcards
      ∧ d2.flashcards.drop sampleDeck.flashcards.length = [sampleCard]
      ∧ d2.flashcards.length = sampleDeck.flashcards.length + 1
      ∧ (handleTenMore sampleState (.parsedTen [sampleCard])).viewedCards
          = sampleState.viewedCards :=
  c4_extend_appends sampleState sampleDeck [sampleCard] (by decide) rfl rfl

theorem flipCard_of_mem (s : AppState) (topic : String) (i : Nat) (h : i ∈ s.viewedCards) :
    flipCard s topic i =
      { s with flipped := if i ∈ s.flipped then s.flipped.erase i else s.flipped ++ [i] } := by
  unfold flipCard
  dsimp only
  rw [if_pos h]

theorem save_usp_ringLabel (s : AppState) (topic : String) (d : GenerationResponse)
    (hd : s.currentDeck = some d) :
    (saveSession (updateStudyProgress s) topic).ringLabel
      = toString (studyPercentZ s.viewedCards.length d.flashcards.length) ++ "%" := by
  rw [save_ringLabel, usp_ringLabel_of_deck _ d hd]

theorem save_usp_storage_viewed (s : AppState) (topic : String) (d : GenerationResponse)
    (hd : s.currentDeck = some d) :
    (saveSession (updateStudyProgress s) topic).storage.viewed = some s.viewedCards := by
  rw [save_storage_of_deck _ topic d (by rw [usp_currentDeck]; exact hd), usp_viewedCards]

/-- C5: the first unflipped-to-flipped transition of card `i` appends `i` to
the viewed set, recomputes the displayed progress and persists the session;
a second flip of the same card changes neither the viewed set nor the
persisted storage (no save with a different viewed count). -/
theorem c5_flip_idempotent (s : AppState) (d : GenerationResponse) (topic : String) (i : Nat)
    (hd : s.currentDeck = some d) (hi : i ∉ s.viewedCards) :
    ((flipCard s topic i).viewedCards = s.viewedCards ++ [i])
      ∧ ((flipCard s topic i).ringLabel
          = toString (studyPercentZ (s.viewedCards.length + 1) d.flashcards.length) ++ "%")
      ∧ ((flipCard s topic i).storage.viewed = some (s.viewedCards ++ [i]))
      ∧ ((flipCard (flipCard s topic i) topic i).viewedCards = (flipCard s topic i).viewedCards)
      ∧ ((flipCard (flipCard s topic i) topic i).storage = (flipCard s topic i).storage) := by
  have hins : setInsert s.viewedCards i = s.viewedCards ++ [i] := by
    rw [setInsert, if_neg hi]
  have hview : (flipCard s topic i).viewedCards = s.viewedCards ++ [i] := by
    unfold flipCard
    dsimp only
    rw [if_neg hi]
    rw [save_viewedCards, usp_viewedCards]
    exact hins
  have hmem : i ∈ (flipCard s topic i).viewedCards := by
    rw [hview]
    simp
  refine ⟨hview, ?_, ?_, ?_, ?_⟩
  · unfold flipCard
    dsimp only
    rw [if_neg hi, hins]
    have hlen : (s.viewedCards ++ [i]).length = s.viewedCards.length + 1 := by simp
    rw [← hlen]
    apply save_usp_ringLabel _ topic d
    exact hd
  · unfold flipCard
    dsimp only
    rw [if_neg hi, hins]
    apply save_usp_storage_viewed _ topic d
    exact hd
  · rw [flipCard_of_mem _ topic i hmem]
  · rw [flipCard_of_mem _ topic i hmem]

theorem c5_flip_idempotent_witness :
    ((flipCard sampleState "biology" 0).viewedCards = [] ++ [0])
      ∧ ((flipCard sampleState "biology" 0).ringLabel
          = toString (studyPercentZ (0 + 1) 1) ++ "%")
      ∧ ((flipCard sampleState "biology" 0).storage.viewed = some ([] ++ [0]))
      ∧ ((flipCard (flipCard sampleState "biology" 0) "biology" 0).viewedCards
          = (flipCard sampleState "biology" 0).viewedCards)
      ∧ ((flipCard (flipCard sampleState "biology" 0) "biology" 0).storage
          = (flipCard sampleState "biology" 0).storage) :=
  c5_flip_idempotent sampleState sampleDeck "biology" 0 rfl (by decide)

theorem handleGenerateStart_none_of_busy (s : AppState) (b : Bool)
    (h : s.generateDisabled = true ∨ s.regenDisabled = true) :
    handleGenerateStart s b = none := by
  unfold handleGenerateStart
  dsimp only
  by_cases h1 :
      (if jsTrim s.topicInputValue = "" then s.currentTopic else jsTrim s.topicInputValue) = ""
  · rw [if_pos h1]
  · rw [if_neg h1, if_pos (by rcases h with h | h <;> simp [h])]

theorem handleGenerateStart_some_flags (s : AppState) (b : Bool) (s1 : AppState)
    (h : handleGenerateStart s b = some s1) :
    s1.generateDisabled = true ∨ s1.regenDisabled = true := by
  unfold handleGenerateStart at h
  dsimp only at h
  by_cases h1 :
      (if jsTrim s.topicInputValue = "" then s.currentTopic else jsTrim s.topicInputValue) = ""
  · rw [if_pos h1] at h
    exact Option.noConfusion h
  · rw [if_neg h1] at h
    by_cases h2 : (s.generateDisabled || s.regenDisabled) = true
    · rw [if_pos h2] at h
      exact Option.noConfusion h
    · rw [if_neg h2] at h
      injection h with h3
      subst h3
      cases b
      · exact Or.inl rfl
      · exact Or.inr rfl

/-- C8: a generate invocation on a state whose busy flag is set is a no-op
that issues no request; the synchronous prefix of a successful invocation
leaves a busy flag set, so a second invocation (button click or Enter key,
both of which run `handleGenerate`) before completion issues no request and
changes nothing. -/
theorem c8_reentrancy_guard (s : AppState) (b : Bool) :
    ((s.generateDisabled = true ∨ s.regenDisabled = true) →
        handleGenerateStart s b = none)
      ∧ (handleGenerateStart s b = none → ∀ o, handleGenerate s b o = s)
      ∧ (∀ s1, handleGenerateStart s b = some s1 →
          (s1.generateDisabled = true ∨ s1.regenDisabled = true)
            ∧ ∀ b2, handleGenerateStart s1 b2 = none) := by
  refine ⟨handleGenerateStart_none_of_busy s b, ?_, ?_⟩
  · intro h o
    unfold handleGenerate
    rw [h]
  · intro s1 h1
    refine ⟨handleGenerateStart_some_flags s b s1 h1, fun b2 => ?_⟩
    exact handleGenerateStart_none_of_busy s1 b2 (handleGenerateStart_some_flags s b s1 h1)

theorem c8_reentrancy_guard_witness :
    (handleGenerateStart { sampleState with generateDisabled := true } false = none)
      ∧ (handleGenerate { sampleState with generateDisabled := true } false
            (.apiError "boom") = { sampleState with generateDisabled := true }) :=
  ⟨(c8_reentrancy_guard { sampleState with generateDisabled := true } false).1 (Or.inl rfl),
    (c8_reentrancy_guard { sampleState with generateDisabled := true } false).2.1
      ((c8_reentrancy_guard { sampleState with generateDisabled := true } false).1 (Or.inl rfl))
      (.apiError "boom")⟩

theorem strContains_of_middle (pre mid post small : String) (h : strContains mid small) :
    strContains (pre ++ mid ++ post) small := by
  obtain ⟨x, y, hxy⟩ := h
  refine ⟨pre ++ x, y ++ post, ?_⟩
  rw [hxy]
  apply String.ext
  simp [String.data_append]

theorem strContains_self_of_append (pre post small : String) :
    strContains (pre ++ small ++ post) small :=
  ⟨pre, post, rfl⟩

theorem strContains_refl (s : String) : strContains s s := by
  refine ⟨"", "", ?_⟩
  rw [String.empty_append, String.append_empty]

theorem joinComma_contains (terms : List String) (t : String) (h : t ∈ terms) :
    strContains (joinComma terms) t := by
  induction terms with
  | nil => cases h
  | cons x xs ih =>
    rcases List.mem_cons.mp h with rfl | hx
    · cases xs with
      | nil => exact strContains_refl t
      | cons y ys =>
        refine ⟨"", ", " ++ joinComma (y :: ys), ?_⟩
        show joinComma (t :: y :: ys) = "" ++ t ++ (", " ++ joinComma (y :: ys))
        rw [String.empty_append, ← String.append_assoc]
        rfl
    · cases xs with
      | nil => cases hx
      | cons y ys =>
        have h1 := ih hx
        have h2 := strContains_of_middle (x ++ ", ") (joinComma (y :: ys)) "" t h1
        rw [String.append_empty] at h2
        exact h2

theorem genAvoidList_contains (terms : List String) (t : String) (h : t ∈ terms) :
    strContains (genAvoidList terms) t := by
  rw [genAvoidList, if_pos (by
    have := List.length_pos.mpr (List.ne_nil_of_mem h)
    omega)]
  exact strContains_of_middle _ _ "." t (joinComma_contains terms t h)

theorem tenMoreAvoidList_contains (terms : List String) (t : String) (h : t ∈ terms) :
    strContains (tenMoreAvoidList terms) t := by
  rw [tenMoreAvoidList]
  exact strContains_of_middle _ _ "." t (joinComma_contains terms t h)

/-- C9: every used term occurs literally in the forbidden-terms instruction
of both the regenerate prompt and the extend prompt; with no used terms the
regenerate prompt's avoid-list component is the empty string (no
forbidden-terms instruction is included). -/
theorem c9_prompt_forbidden_terms :
    (∀ (topic difficulty quantity t : String) (terms : List String), t ∈ terms →
        strContains (genSystemInstruction topic difficulty quantity terms) t
          ∧ strContains (tenMoreSystemInstruction topic difficulty terms) t)
      ∧ genAvoidList [] = "" := by
  constructor
  · intro topic difficulty quantity t terms ht
    constructor
    · rw [genSystemInstruction]
      exact strContains_of_middle _ _ _ t (genAvoidList_contains terms t ht)
    · rw [tenMoreSystemInstruction]
      exact strContains_of_middle _ _ _ t (tenMoreAvoidList_contains terms t ht)
  · rfl

theorem c9_prompt_forbidden_terms_witness :
    strContains (genSystemInstruction "biology" "medium" "10" ["mitosis"]) "mitosis"
      ∧ strContains (tenMoreSystemInstruction "biology" "medium" ["mitosis"]) "mitosis"
      ∧ genAvoidList [] = "" :=
  ⟨(c9_prompt_forbidden_terms.1 "biology" "medium" "10" "mitosis" ["mitosis"]
      (by simp)).1,
    (c9_prompt_forbidden_terms.1 "biology" "medium" "10" "mitosis" ["mitosis"]
      (by simp)).2,
    c9_prompt_forbidden_terms.2⟩

/-- C6 counterexample: with current topic `biology` and `usedTerms =
\x7b"mitosis"\x7d`, pressing Generate again for the very same topic (a fresh
non-regenerate generation) clears `usedTerms`: after a successful response
whose only term is `Meiosis`, the set is `\x7b"meiosis"\x7d` and no longer
contains `mitosis`, although the topic never changed and no explicit reset
ran. -/
theorem c6_usedTerms_counterexample :
    (sampleState.currentTopic = "biology")
      ∧ ((handleGenerate sampleState false (.parsed sampleResponseB)).currentTopic = "biology")
      ∧ ("mitosis" ∈ sampleState.usedTerms)
      ∧ ("mitosis" ∉ (handleGenerate sampleState false (.parsed sampleResponseB)).usedTerms) := by
  refine ⟨rfl, by decide, by decide, by decide⟩

theorem handleGenerateStart_regen_usedTerms (s s1 : AppState)
    (h : handleGenerateStart s true = some s1) : s1.usedTerms = s.usedTerms := by
  unfold handleGenerateStart at h
  dsimp only at h
  by_cases h1 :
      (if jsTrim s.topicInputValue = "" then s.currentTopic else jsTrim s.topicInputValue) = ""
  · rw [if_pos h1] at h
    exact Option.noConfusion h
  · rw [if_neg h1] at h
    by_cases h2 : (s.generateDisabled || s.regenDisabled) = true
    · rw [if_pos h2] at h
      exact Option.noConfusion h
    · rw [if_neg h2] at h
      injection h with h3
      subst h3
      rfl

theorem handleGenerateStart_nonregen_usedTerms (s s1 : AppState)
    (h : handleGenerateStart s false = some s1) : s1.usedTerms = [] := by
  unfold handleGenerateStart at h
  dsimp only at h
  by_cases h1 :
      (if jsTrim s.topicInputValue = "" then s.currentTopic else jsTrim s.topicInputValue) = ""
  · rw [if_pos h1] at h
    exact Option.noConfusion h
  · rw [if_neg h1] at h
    by_cases h2 : (s.generateDisabled || s.regenDisabled) = true
    · rw [if_pos h2] at h
      exact Option.noConfusion h
    · rw [if_neg h2] at h
      injection h with h3
      subst h3
      rfl

theorem handleGenerateFinish_usedTerms_superset (s1 : AppState) (o : GenOutcome) :
    s1.usedTerms ⊆ (handleGenerateFinish s1 o).usedTerms := by
  cases o with
  | apiError msg => exact fun a ha => ha
  | badJson msg => exact fun a ha => ha
  | jsonNoFlashcards => exact fun a ha => ha
  | parsed g =>
    unfold handleGenerateFinish stopLoadingSimulation
    dsimp only
    rw [save_usedTerms]
    unfold renderDeck
    rw [usp_usedTerms]
    exact subset_foldl_setInsert (fun c => jsToLowerCase c.term) g.flashcards s1.usedTerms

/-- C6 (amended): `usedTerms` only grows across regenerations and
extensions; it is emptied by `performDeepClear` (explicit reset) and by the
synchronous prefix of every non-regenerate generate invocation — including a
fresh generation of the unchanged topic, which is the point the original
claim gets wrong. -/
theorem c6_usedTerms_amended :
    (∀ (s : AppState) (o : GenOutcome), s.usedTerms ⊆ (handleGenerate s true o).usedTerms)
      ∧ (∀ (s : AppState) (o : TenMoreOutcome), s.usedTerms ⊆ (handleTenMore s o).usedTerms)
      ∧ (∀ s : AppState, (performDeepClear s).usedTerms = [])
      ∧ (∀ (s s1 : AppState), handleGenerateStart s false = some s1 → s1.usedTerms = []) := by
  refine ⟨?_, ?_, fun s => rfl, handleGenerateStart_nonregen_usedTerms⟩
  · intro s o
    unfold handleGenerate
    cases hstart : handleGenerateStart s true with
    | none => exact fun a ha => ha
    | some s1 =>
      dsimp only
      intro a ha
      apply handleGenerateFinish_usedTerms_superset s1 o
      rw [handleGenerateStart_regen_usedTerms s s1 hstart]
      exact ha
  · intro s o
    unfold handleTenMore
    split
    · exact fun a ha => ha
    · split
      · exact fun a ha => ha
      · split
        · exact fun a ha => ha
        · cases o with
          | apiError msg => exact fun a ha => ha
          | badJson msg => exact fun a ha => ha
          | parsedTen cards =>
            dsimp only
            rw [save_usedTerms, usp_usedTerms]
            exact subset_foldl_setInsert (fun c => jsToLowerCase c.term) cards s.usedTerms

theorem c6_usedTerms_amended_witness :
    (sampleState.usedTerms ⊆ (handleGenerate sampleState true (.apiError "boom")).usedTerms)
      ∧ (sampleState.usedTerms ⊆ (handleTenMore sampleState (.apiError "boom")).usedTerms)
      ∧ ((performDeepClear sampleState).usedTerms = [])
      ∧ (({ sampleState with
              generateDisabled := true
              usedTerms := []
              loadingActive := true
              ringLabel := "0%"
              currentTopic := "biology" } : AppState).usedTerms = []) :=
  ⟨c6_usedTerms_amended.1 sampleState (.apiError "boom"),
    c6_usedTerms_amended.2.1 sampleState (.apiError "boom"),
    c6_usedTerms_amended.2.2.1 sampleState,
    c6_usedTerms_amended.2.2.2 sampleState
      { sampleState with
          generateDisabled := true
          usedTerms := []
          loadingActive := true
          ringLabel := "0%"
          currentTopic := "biology" }
      (by decide)⟩

theorem handleGenerateStart_currentDeck (s : AppState) (b : Bool) (s1 : AppState)
    (h : handleGenerateStart s b = some s1) : s1.currentDeck = s.currentDeck := by
  unfold handleGenerateStart at h
  dsimp only at h
  by_cases h1 :
      (if jsTrim s.topicInputValue = "" then s.currentTopic else jsTrim s.topicInputValue) = ""
  · rw [if_pos h1] at h
    exact Option.noConfusion h
  · rw [if_neg h1] at h
    by_cases h2 : (s.generateDisabled || s.regenDisabled) = true
    · rw [if_pos h2] at h
      exact Option.noConfusion h
    · rw [if_neg h2] at h
      injection h with h3
      subst h3
      cases b <;> rfl

/-- C2 counterexample: a failed extend request (network error `network
down`) leaves the status line exactly as it was — the error text is only
written to the console, never surfaced to the user — refuting the claim that
every failed generation (the extend request included) surfaces a message
containing the underlying error text. -/
theorem c2_error_surfacing_counterexample :
    ((handleTenMore sampleState (.apiError "network down")).errorText = "0 / 1 Reviewed")
      ∧ ((handleTenMore sampleState (.apiError "network down")).errorText
          = sampleState.errorText)
      ∧ (containsCheck (handleTenMore sampleState (.apiError "network down")).errorText
          "network down" = false) := by
  refine ⟨by decide, by decide, by decide⟩

/-- C2 (amended): for the initial generate and the regenerate request, every
failure (network/API error, JSON-parse error, or a parsed object without a
`flashcards` array — which is what an empty result produces) sets the status
line to `API Error: ...` containing the underlying error text, leaves
`currentDeck` unchanged, and clears both busy flags; for the extend request
the deck is likewise unchanged and the busy flag cleared, but no user-visible
message is set (the failure is only logged to the console). -/
theorem c2_error_handling_amended :
    (∀ (s s1 : AppState) (b : Bool) (msg : String),
        handleGenerateStart s b = some s1 →
          (((handleGenerateFinish s1 (.apiError msg)).errorText = "API Error: " ++ msg)
            ∧ ((handleGenerateFinish s1 (.apiError msg)).currentDeck = s.currentDeck)
            ∧ ((handleGenerateFinish s1 (.apiError msg)).generateDisabled = false)
            ∧ ((handleGenerateFinish s1 (.apiError msg)).regenDisabled = false))
          ∧ (((handleGenerateFinish s1 (.badJson msg)).errorText = "API Error: " ++ msg)
            ∧ ((handleGenerateFinish s1 (.badJson msg)).currentDeck = s.currentDeck)
            ∧ ((handleGenerateFinish s1 (.badJson msg)).generateDisabled = false)
            ∧ ((handleGenerateFinish s1 (.badJson msg)).regenDisabled = false))
          ∧ (((handleGenerateFinish s1 .jsonNoFlashcards).errorText
                = "API Error: " ++ jsForEachUndefinedMsg)
            ∧ ((handleGenerateFinish s1 .jsonNoFlashcards).currentDeck = s.currentDeck)
            ∧ ((handleGenerateFinish s1 .jsonNoFlashcards).generateDisabled = false)
            ∧ ((handleGenerateFinish s1 .jsonNoFlashcards).regenDisabled = false)))
      ∧ (∀ (s : AppState) (d : GenerationResponse) (msg : String),
          s.currentTopic ≠ "" → s.currentDeck = some d → s.tenMoreDisabled = false →
            (((handleTenMore s (.apiError msg)).errorText = s.errorText)
              ∧ ((handleTenMore s (.apiError msg)).currentDeck = s.currentDeck)
              ∧ ((handleTenMore s (.apiError msg)).tenMoreDisabled = false))
            ∧ (((handleTenMore s (.badJson msg)).errorText = s.errorText)
              ∧ ((handleTenMore s (.badJson msg)).currentDeck = s.currentDeck)
              ∧ ((handleTenMore s (.badJson msg)).tenMoreDisabled = false))) := by
  constructor
  · intro s s1 b msg h
    have hdeck := handleGenerateStart_currentDeck s b s1 h
    exact ⟨⟨rfl, hdeck, rfl, rfl⟩, ⟨rfl, hdeck, rfl, rfl⟩, ⟨rfl, hdeck, rfl, rfl⟩⟩
  · intro s d msg htop hd hbusy
    unfold handleTenMore
    rw [if_neg htop, hd]
    dsimp only
    rw [if_neg (by rw [hbusy]; exact Bool.false_ne_true)]
    exact ⟨⟨rfl, rfl, rfl⟩, ⟨rfl, rfl, rfl⟩⟩

theorem c2_error_handling_amended_witness :
    ((handleGenerateFinish { sampleState with
          generateDisabled := true
          usedTerms := []
          loadingActive := true
          ringLabel := "0%"
          currentTopic := "biology" } (.apiError "boom")).errorText = "API Error: " ++ "boom")
      ∧ ((handleTenMore sampleState (.apiError "boom")).errorText = sampleState.errorText)
      ∧ ((handleTenMore sampleState (.apiError "boom")).currentDeck
          = sampleState.currentDeck)
      ∧ ((handleTenMore sampleState (.apiError "boom")).tenMoreDisabled = false) :=
  ⟨((c2_error_handling_amended.1 sampleState { sampleState with
        generateDisabled := true
        usedTerms := []
        loadingActive := true
        ringLabel := "0%"
        currentTopic := "biology" } false "boom" (by decide)).1).1,
    ((c2_error_handling_amended.2 sampleState sampleDeck "boom" (by decide) rfl rfl).1).1,
    ((c2_error_handling_amended.2 sampleState sampleDeck "boom" (by decide) rfl rfl).1).2.1,
    ((c2_error_handling_amended.2 sampleState sampleDeck "boom" (by decide) rfl rfl).1).2.2⟩

theorem handleGenerateStart_viewed_storage (s : AppState) (b : Bool) (s1 : AppState)
    (h : handleGenerateStart s b = some s1) :
    s1.viewedCards = s.viewedCards ∧ s1.storage = s.storage := by
  unfold handleGenerateStart at h
  dsimp only at h
  by_cases h1 :
      (if jsTrim s.topicInputValue = "" then s.currentTopic else jsTrim s.topicInputValue) = ""
  · rw [if_pos h1] at h
    exact Option.noConfusion h
  · rw [if_neg h1] at h
    by_cases h2 : (s.generateDisabled || s.regenDisabled) = true
    · rw [if_pos h2] at h
      exact Option.noConfusion h
    · rw [if_neg h2] at h
      injection h with h3
      subst h3
      cases b <;> exact ⟨rfl, rfl⟩

theorem save_usp_storage (x : AppState) (topic : String) (g : GenerationResponse)
    (hd : x.currentDeck = some g) :
    (saveSession (updateStudyProgress x) topic).storage
      = { session := some (topic, g)
          viewed := some x.viewedCards
          usedTerms := some x.usedTerms } := by
  have hdeck : (updateStudyProgress x).currentDeck = some g := by
    rw [usp_currentDeck]
    exact hd
  rw [save_storage_of_deck _ topic g hdeck, usp_viewedCards, usp_usedTerms]

theorem save_renderDeck_storage (x : AppState) (topic : String) (g : GenerationResponse)
    (hd : x.currentDeck = some g) :
    (saveSession (renderDeck x) topic).storage
      = { session := some (topic, g)
          viewed := some x.viewedCards
          usedTerms := some x.usedTerms } := by
  have hdeck : (renderDeck x).currentDeck = some g := by
    unfold renderDeck
    rw [usp_currentDeck]
    exact hd
  rw [save_storage_of_deck _ topic g hdeck]
  unfold renderDeck
  rw [usp_viewedCards, usp_usedTerms]

theorem genSuccess_viewedCards (s1 : AppState) (g : GenerationResponse) :
    (handleGenerateFinish s1 (.parsed g)).viewedCards = [] := by
  unfold handleGenerateFinish stopLoadingSimulation
  dsimp only
  rw [save_viewedCards]
  unfold renderDeck
  rw [usp_viewedCards]

theorem genSuccess_storage (s1 : AppState) (g : GenerationResponse) :
    (handleGenerateFinish s1 (.parsed g)).storage
      = { session := some (s1.currentTopic, g)
          viewed := some ([] : List Nat)
          usedTerms := some (g.flashcards.foldl
            (fun ts c => setInsert ts (jsToLowerCase c.term)) s1.usedTerms) } := by
  unfold handleGenerateFinish stopLoadingSimulation
  dsimp only
  exact save_renderDeck_storage _ _ g rfl

theorem flipCard_not_mem_fields (s : AppState) (topic : String) (i : Nat)
    (d : GenerationResponse) (hmem : i ∉ s.viewedCards) (hd : s.currentDeck = some d) :
    ((flipCard s topic i).viewedCards = setInsert s.viewedCards i)
      ∧ ((flipCard s topic i).currentDeck = some d)
      ∧ ((flipCard s topic i).storage
          = { session := some (topic, d)
              viewed := some (setInsert s.viewedCards i)
              usedTerms := some s.usedTerms }) := by
  unfold flipCard
  dsimp only
  rw [if_neg hmem]
  refine ⟨?_, ?_, ?_⟩
  · rw [save_viewedCards, usp_viewedCards]
  · rw [save_currentDeck, usp_currentDeck]
    exact hd
  · exact save_usp_storage _ topic d hd

/-- C7: the invariant "every viewed index addresses a card of the current
deck" (together with consistency of the persisted slots) is preserved by
generation/regeneration with any outcome, by extension with any outcome, by
flipping any card that exists in the rendered deck, and by the deep clear;
and it holds after a session load from any consistent storage. -/
theorem c7_viewed_indices_invariant (s : AppState) (hs : stateInv s) :
    (∀ (b : Bool) (o : GenOutcome), stateInv (handleGenerate s b o))
      ∧ (∀ o : TenMoreOutcome, stateInv (handleTenMore s o))
      ∧ (∀ (topic : String) (i : Nat), i < deckLen s → stateInv (flipCard s topic i))
      ∧ stateInv (performDeepClear s)
      ∧ (∀ st : Storage, storageOk st → stateInv (init (initState st))) := by
  obtain ⟨hv, hok⟩ := hs
  refine ⟨?_, ?_, ?_, ?_, ?_⟩
  · -- generation / regeneration
    intro b o
    unfold handleGenerate
    cases hstart : handleGenerateStart s b with
    | none => exact ⟨hv, hok⟩
    | some s1 =>
      dsimp only
      obtain ⟨hfv, hfs⟩ := handleGenerateStart_viewed_storage s b s1 hstart
      have hfd := handleGenerateStart_currentDeck s b s1 hstart
      have hs1 : stateInv s1 := by
        constructor
        · intro i hi
          rw [hfv] at hi
          have hlt := hv i hi
          unfold deckLen at hlt ⊢
          rw [hfd]
          exact hlt
        · rw [hfs]
          exact hok
      cases o with
      | apiError msg => exact hs1
      | badJson msg => exact hs1
      | jsonNoFlashcards => exact hs1
      | parsed g =>
        constructor
        · intro i hi
          rw [genSuccess_viewedCards] at hi
          cases hi
        · rw [genSuccess_storage]
          intro i hi
          cases hi
  · -- extension
    intro o
    unfold handleTenMore
    split
    · exact ⟨hv, hok⟩
    · split
      · exact ⟨hv, hok⟩
      · rename_i d heq
        split
        · exact ⟨hv, hok⟩
        · cases o with
          | apiError msg => exact ⟨hv, hok⟩
          | badJson msg => exact ⟨hv, hok⟩
          | parsedTen cards =>
            dsimp only
            have hdlen0 : deckLen s = d.flashcards.length := by
              unfold deckLen
              rw [heq]
            have hlen : ∀ i ∈ s.viewedCards, i < d.flashcards.length + cards.length := by
              intro i hi
              have hlt := hv i hi
              rw [hdlen0] at hlt
              omega
            constructor
            · intro i hi
              rw [save_viewedCards, usp_viewedCards] at hi
              unfold deckLen
              rw [save_currentDeck, usp_currentDeck]
              dsimp only
              simp only [List.length_append]
              exact hlen i hi
            · rw [save_usp_storage _ s.currentTopic
                { d with flashcards := d.flashcards ++ cards } rfl]
              intro i hi
              dsimp only at hi ⊢
              simp only [List.length_append]
              exact hlen i hi
  · -- card flip
    intro topic i hilen
    by_cases hmem : i ∈ s.viewedCards
    · rw [flipCard_of_mem s topic i hmem]
      exact ⟨hv, hok⟩
    · cases hdeck : s.currentDeck with
      | none =>
        exfalso
        unfold deckLen at hilen
        rw [hdeck] at hilen
        exact Nat.not_lt_zero i hilen
      | some d =>
        obtain ⟨hfv, hfd, hfs⟩ := flipCard_not_mem_fields s topic i d hmem hdeck
        have hdlen : deckLen s = d.flashcards.length := by
          unfold deckLen
          rw [hdeck]
        constructor
        · intro j hj
          rw [hfv] at hj
          unfold deckLen
          rw [hfd]
          rcases (mem_setInsert _ _ _).mp hj with hj1 | rfl
          · have := hv j hj1
            rw [hdlen] at this
            exact this
          · rw [hdlen] at hilen
            exact hilen
        · rw [hfs]
          intro j hj
          rcases (mem_setInsert _ _ _).mp hj with hj1 | rfl
          · have := hv j hj1
            rw [hdlen] at this
            exact this
          · rw [hdlen] at hilen
            exact hilen
  · -- deep clear
    refine ⟨?_, ?_⟩
    · intro i hi
      cases hi
    · trivial
  · -- session load
    intro st hok2
    unfold init initState
    dsimp only
    cases hsess : st.session with
    | none => exact ⟨fun i hi => absurd hi (List.not_mem_nil i), hok2⟩
    | some p =>
      obtain ⟨topic, deck⟩ := p
      have hvr : ∀ (x : AppState), (renderDeck x).viewedCards = x.viewedCards := by
        intro x
        unfold renderDeck
        rw [usp_viewedCards]
      have hdr : ∀ (x : AppState), (renderDeck x).currentDeck = x.currentDeck := by
        intro x
        unfold renderDeck
        rw [usp_currentDeck]
      have hsr : ∀ (x : AppState), (renderDeck x).storage = x.storage := by
        intro x
        unfold renderDeck
        rw [usp_storage]
      cases hview : st.viewed with
      | none =>
        cases hused : st.usedTerms with
        | none =>
          constructor
          · intro i hi
            rw [hvr] at hi
            cases hi
          · rw [hsr]
            exact hok2
        | some ts =>
          constructor
          · intro i hi
            rw [hvr] at hi
            cases hi
          · rw [hsr]
            exact hok2
      | some vs =>
        have hvs : ∀ i ∈ vs, i < deck.flashcards.length := by
          have := hok2
          unfold storageOk at this
          rw [hsess, hview] at this
          exact this
        cases hused : st.usedTerms with
        | none =>
          constructor
          · intro i hi
            rw [hvr] at hi
            unfold deckLen
            rw [hdr]
            exact hvs i (mem_setFromList vs i hi)
          · rw [hsr]
            exact hok2
        | some ts =>
          constructor
          · intro i hi
            rw [hvr] at hi
            unfold deckLen
            rw [hdr]
            exact hvs i (mem_setFromList vs i hi)
          · rw [hsr]
            exact hok2

theorem c7_viewed_indices_invariant_witness :
    stateInv (handleGenerate sampleState false (.apiError "boom"))
      ∧ stateInv (handleTenMore sampleState (.parsedTen [sampleCard]))
      ∧ stateInv (flipCard sampleState "biology" 0)
      ∧ stateInv (performDeepClear sampleState)
      ∧ stateInv (init (initState sampleState.storage)) :=
  ⟨(c7_viewed_indices_invariant sampleState
      ⟨fun i hi => absurd hi (List.not_mem_nil i),
        fun i hi => absurd hi (List.not_mem_nil i)⟩).1 false (.apiError "boom"),
    (c7_viewed_indices_invariant sampleState
      ⟨fun i hi => absurd hi (List.not_mem_nil i),
        fun i hi => absurd hi (List.not_mem_nil i)⟩).2.1 (.parsedTen [sampleCard]),
    (c7_viewed_indices_invariant sampleState
      ⟨fun i hi => absurd hi (List.not_mem_nil i),
        fun i hi => absurd hi (List.not_mem_nil i)⟩).2.2.1 "biology" 0 (by decide),
    (c7_viewed_indices_invariant sampleState
      ⟨fun i hi => absurd hi (List.not_mem_nil i),
        fun i hi => absurd hi (List.not_mem_nil i)⟩).2.2.2.1,
    (c7_viewed_indices_invariant sampleState
      ⟨fun i hi => absurd hi (List.not_mem_nil i),
        fun i hi => absurd hi (List.not_mem_nil i)⟩).2.2.2.2 sampleState.storage
      (fun i hi => absurd hi (List.not_mem_nil i))⟩
